import Mathlib

/-
  Shallow embedding of the authentication / subscription core of the
  e-learning service (src/jwt_setup.py, src/subscription.py, src/course.py,
  src/user.py).  Machine state (the user table) is passed explicitly; every
  endpoint that can write returns the updated table alongside its result.
  Timestamps are modelled as natural numbers of seconds since the epoch;
  `datetime.isoformat` is abstracted as decimal rendering of that number.
  The JWT HMAC is modelled as an ideal MAC: the signature of a payload under
  a key is the pair (key, payload), so a signature verifies exactly when it
  was produced over this payload with this key.
-/

namespace ELearn

/-- FastAPI HTTPException as raised by the handlers: a status code and a
detail string. -/
structure HTTPError where
  status : Nat
  detail : String
deriving Repr, DecidableEq

/-- Outcome of a handler: a value, or an HTTPException. -/
inductive Res (α : Type) where
  | ok (val : α)
  | error (e : HTTPError)
deriving Repr, DecidableEq

/-- The claims dict built at login in `user.py` (`token_data`): email, name,
role, subscribed, subscription_date (nullable timestamp). -/
structure TokenClaims where
  email : String
  name : String
  role : String
  subscribed : Bool
  subscription_date : Option Nat
deriving Repr, DecidableEq

/-- The encoded JWT payload: the claims plus the `exp` field added by
`create_access_token`. -/
structure Payload where
  claims : TokenClaims
  exp : Nat
deriving Repr, DecidableEq

/-- Ideal MAC over the payload with the server key. -/
def mac (key : Nat) (p : Payload) : Nat × Payload := (key, p)

/-- A signed token: payload together with the signature bytes. -/
structure Token where
  payload : Payload
  sig : Nat × Payload
deriving Repr, DecidableEq

/-- jwt_setup.create_access_token: copies the data, adds
`exp = now + ACCESS_TOKEN_EXPIRE_MINUTES minutes`, signs with SECRET_KEY. -/
def create_access_token (key ttlMinutes : Nat) (data : TokenClaims) (now : Nat) : Token :=
  let expire := now + ttlMinutes * 60
  let to_encode : Payload := ⟨data, expire⟩
  ⟨to_encode, mac key to_encode⟩

/-- Errors raised by PyJWT `jwt.decode`. -/
inductive JwtError where
  | expiredSignature
  | invalidTok
deriving Repr, DecidableEq

/-- What travels on the wire in place of a token string: a structurally
intact signed token, or a malformed string. -/
inductive Wire where
  | jwtToken (t : Token)
  | malformed (s : String)
deriving Repr, DecidableEq

/-- The Authorization header value: a Bearer token, or something else. -/
inductive AuthHeaderVal where
  | bearer (w : Wire)
  | other (s : String)
deriving Repr, DecidableEq

/-- The parts of the inbound request that `check_token` inspects: the
`access_token` cookie and the `Authorization` header. -/
structure Request where
  cookie_access_token : Option Wire
  authorization : Option AuthHeaderVal
deriving Repr, DecidableEq

/-- PyJWT jwt.decode: verifies the signature first (InvalidTokenError on
mismatch or malformed input), then validates `exp` (ExpiredSignatureError
when exp < now). -/
def jwt_decode (key : Nat) (w : Wire) (now : Nat) : Except JwtError Payload :=
  match w with
  | .malformed _ => .error .invalidTok
  | .jwtToken t =>
    if t.sig ≠ mac key t.payload then .error .invalidTok
    else if t.payload.exp < now then .error .expiredSignature
    else .ok t.payload

/-- Token extraction in jwt_setup.check_token: the cookie, else the
Authorization header when it starts with "Bearer ". -/
def extract_token (req : Request) : Option Wire :=
  match req.cookie_access_token with
  | some w => some w
  | none =>
    match req.authorization with
    | some (.bearer w) => some w
    | some (.other _) => none
    | none => none

/-- The dict returned by check_token on success:
status "Valid token" and the decoded payload under "user". -/
structure TokenData where
  status : String
  user : Payload
deriving Repr, DecidableEq

/-- jwt_setup.check_token: extracts the token (401 if absent from both
locations), decodes it, and maps the PyJWT errors to 401 responses. -/
def check_token (key now : Nat) (req : Request) : Res TokenData :=
  match extract_token req with
  | none => .error ⟨401, "No token found in cookies or Authorization header"⟩
  | some w =>
    match jwt_decode key w now with
    | .ok decoded => .ok ⟨"Valid token", decoded⟩
    | .error .expiredSignature => .error ⟨401, "Token expired"⟩
    | .error .invalidTok => .error ⟨401, "Invalid token"⟩

/-- The logout response of jwt_setup.logout: message "Logged out" and the
`access_token` cookie deleted. -/
structure LogoutResponse where
  message : String
  deleted_cookie : Bool
deriving Repr, DecidableEq

/-- jwt_setup.logout: builds the cookie-deleting response. -/
def logout : LogoutResponse := ⟨"Logged out", true⟩

/-- A row of the users table (db_models.User). -/
structure User where
  id : Nat
  name : String
  email : String
  hashed_password : String
  role : String
  subscribed : Bool
  subscription_date : Option Nat
deriving Repr, DecidableEq

/-- db.query(User).filter(User.email == email).first() -/
def findUser (db : List User) (email : String) : Option User :=
  db.find? (fun u => u.email == email)

/-- ORM row mutation plus commit: replace the row with the given id. -/
def updateById (db : List User) (id : Nat) (u' : User) : List User :=
  db.map (fun u => if u.id == id then u' else u)

/-- Number of rows with role "admin". -/
def countAdmins (db : List User) : Nat :=
  (db.filter (fun u => u.role == "admin")).length

def SUBSCRIPTION_DURATION_DAYS : Nat := 30

/-- Seconds in a day (timedelta(days=1)). -/
def daySeconds : Nat := 86400

/-- SUBSCRIPTION_PRICE = 100.0, modelled as a natural number. -/
def SUBSCRIPTION_PRICE : Nat := 100

/-- datetime.isoformat abstracted as injective decimal rendering. -/
def isoformat (t : Nat) : String := toString t

/-- The user dict returned by the guard dependencies. -/
structure UserDict where
  email : String
  name : String
  role : String
  subscribed : Bool
  subscription_date : Option String
deriving Repr, DecidableEq

/-- The dict literal built by the guards from the freshly fetched row. -/
def userDict (u : User) : UserDict :=
  ⟨u.email, u.name, u.role, u.subscribed, u.subscription_date.map isoformat⟩

/-- get_current_admin (identical in subscription.py and course.py): verify
the token, re-fetch the user row by the email claimed in the token (401
"User not found" when absent), require role "admin" (403 otherwise); no
write to the store. -/
def get_current_admin (key now : Nat) (req : Request) (db : List User) :
    Res UserDict × List User :=
  match check_token key now req with
  | .error e => (.error e, db)
  | .ok td =>
    match findUser db td.user.claims.email with
    | none => (.error ⟨401, "User not found"⟩, db)
    | some user =>
      if user.role ≠ "admin" then (.error ⟨403, "Admin access required"⟩, db)
      else (.ok (userDict user), db)

/-- course.get_current_subscribed_user: verify the token, re-fetch the row
by claimed email (401 when absent), 403 when not subscribed, 403 when a
subscription_date is present and now is past date + 30 days; a subscribed
user without a subscription_date is let through (the "maybe lifetime"
branch); no write to the store on any path. -/
def get_current_subscribed_user (key now : Nat) (req : Request) (db : List User) :
    Res UserDict × List User :=
  match check_token key now req with
  | .error e => (.error e, db)
  | .ok td =>
    match findUser db td.user.claims.email with
    | none => (.error ⟨401, "User not found"⟩, db)
    | some user =>
      if user.subscribed = false then
        (.error ⟨403, "Subscription required to access courses"⟩, db)
      else
        match user.subscription_date with
        | some d =>
          if now > d + 30 * daySeconds then
            (.error ⟨403, "Subscription has expired"⟩, db)
          else (.ok (userDict user), db)
        | none => (.ok (userDict user), db)

/-- Response body of POST /subscription/purchase. -/
inductive PurchaseOut where
  | alreadyPurchased
  | purchased (user_id subscription_date expires_on price : Nat)
deriving Repr, DecidableEq

/-- subscription.purchase_subscription, given the authenticated row: when
`current_user.subscribed` is already true, return "Already purchased" and
touch nothing; otherwise set subscribed := true and subscription_date := now
and commit. -/
def purchase_subscription (current_user : User) (db : List User) (now : Nat) :
    PurchaseOut × List User :=
  if current_user.subscribed then (.alreadyPurchased, db)
  else
    let u := { current_user with subscribed := true, subscription_date := some now }
    (.purchased u.id now (now + SUBSCRIPTION_DURATION_DAYS * daySeconds) SUBSCRIPTION_PRICE,
     updateById db current_user.id u)

/-- Response body of GET /subscription/check/{email}. -/
inductive CheckOut where
  | inactive (message : String)
  | active (subscription_date expires_on days_left : Nat)
deriving Repr, DecidableEq

/-- subscription.check_subscription, after the admin guard: fetch the row
(404 when absent); inactive when not subscribed or no subscription_date;
when now is past date + 30 days, flip subscribed to false, commit, report
"Subscription expired"; otherwise report active with days_left. -/
def check_subscription (email : String) (db : List User) (now : Nat) :
    Res CheckOut × List User :=
  match findUser db email with
  | none => (.error ⟨404, "User not found"⟩, db)
  | some user =>
    if user.subscribed = false then (.ok (.inactive "No active subscription"), db)
    else
      match user.subscription_date with
      | none => (.ok (.inactive "No active subscription"), db)
      | some d =>
        let expires_on := d + SUBSCRIPTION_DURATION_DAYS * daySeconds
        if now > expires_on then
          (.ok (.inactive "Subscription expired"),
           updateById db user.id { user with subscribed := false })
        else
          (.ok (.active d expires_on ((expires_on - now) / daySeconds)), db)

/-- Registration request body (models.UserModel). -/
structure UserModel where
  name : String
  email : String
  password : String
  role : String
deriving Repr, DecidableEq

/-- user.register_user: reject a duplicate email (400), then reject a second
admin (400, a different detail), else insert the row with subscribed=false
and no subscription_date. -/
def register_user (hash : String → String) (user : UserModel) (db : List User)
    (nextId : Nat) : Res User × List User :=
  if (findUser db user.email).isSome then
    (.error ⟨400, "User with this email already exists"⟩, db)
  else if user.role == "admin" && (db.find? (fun u => u.role == "admin")).isSome then
    (.error ⟨400, "Admin user already exists"⟩, db)
  else
    let nu : User :=
      ⟨nextId, user.name, user.email, hash user.password, user.role, false, none⟩
    (.ok nu, db ++ [nu])

/-- A sequence of registration requests applied to the store in order; a
rejected request leaves the store as it was. -/
def registerAll (hash : String → String) (reqs : List (UserModel × Nat))
    (db : List User) : List User :=
  reqs.foldl (fun acc r => (register_user hash r.1 acc r.2).2) db

/-- Login request body (models.LoginModel). -/
structure LoginModel where
  email : String
  password : String
deriving Repr, DecidableEq

/-- Successful login response: message, token in the body, and the same
token set as the access_token cookie. -/
structure LoginResponse where
  message : String
  access_token : Token
  cookie_access_token : Token
deriving Repr, DecidableEq

/-- user.login_user: fetch by email; when the row is absent or the password
fails verification, answer with the one generic 401; otherwise build the
claims from the row, issue a token and set the cookie. -/
def login_user (verify : String → String → Bool) (key ttl now : Nat)
    (l : LoginModel) (db : List User) : Res LoginResponse :=
  match findUser db l.email with
  | none => .error ⟨401, "Invalid email or password"⟩
  | some user =>
    if verify l.password user.hashed_password = false then
      .error ⟨401, "Invalid email or password"⟩
    else
      let token_data : TokenClaims :=
        ⟨user.email, user.name, user.role, user.subscribed, user.subscription_date⟩
      let access_token := create_access_token key ttl token_data now
      .ok ⟨"Login successful", access_token, access_token⟩

/-- user.logout_user: check_token first (its HTTPException propagates,
leaving the cookie untouched), then return the cookie-deleting response. -/
def logout_user (key now : Nat) (req : Request) : Res LogoutResponse :=
  match check_token key now req with
  | .error e => .error e
  | .ok _ => .ok logout

end ELearn

namespace ELearn

/-- Concrete user row used in witnesses: subscribed, window started at 0. -/
def aliceU : User := ⟨1, "Alice", "a@x", "h", "student", true, some 0⟩

def claimsAlice : TokenClaims := ⟨"a@x", "Alice", "student", true, some 0⟩

/-- Token for Alice issued at second 2678400 (day 31). -/
def tokAlice : Token := create_access_token 7 30 claimsAlice 2678400

def reqAlice : Request := ⟨some (.jwtToken tokAlice), none⟩

/-- Claim C3: verifying a token produced by create_access_token, at any time
strictly before its expiry, succeeds and returns exactly the claims embedded
at issuance together with the added exp field. -/
theorem issue_verify_roundtrip (key ttl : Nat) (claims : TokenClaims) (t0 now : Nat)
    (h : now < t0 + ttl * 60) :
    check_token key now ⟨some (.jwtToken (create_access_token key ttl claims t0)), none⟩
      = .ok ⟨"Valid token", ⟨claims, t0 + ttl * 60⟩⟩ := by
  have h1 : ¬ (t0 + ttl * 60 < now) := by omega
  simp [check_token, extract_token, jwt_decode, create_access_token, mac, h1]

/-- Witness for C3 at a concrete claims set and time. -/
theorem issue_verify_roundtrip_witness :
    check_token 7 1001 ⟨some (.jwtToken (create_access_token 7 30 claimsAlice 1000)), none⟩
      = .ok ⟨"Valid token", ⟨claimsAlice, 1000 + 30 * 60⟩⟩ :=
  issue_verify_roundtrip 7 30 claimsAlice 1000 1001 (by decide)

/-- Claim C4: signature integrity is checked before expiry: a token whose
payload was tampered with (signature still over the original payload) is
rejected as Invalid token at every time, never as expired and never
accepted; an untampered token presented one second past issuance plus TTL is
rejected as Token expired; the two rejections are distinct. -/
theorem tamper_before_expiry (key now t0 ttl : Nat) (claims : TokenClaims)
    (orig tampered : Payload) (hne : tampered ≠ orig) :
    (∀ req, extract_token req = some (.jwtToken ⟨tampered, mac key orig⟩) →
       check_token key now req = .error ⟨401, "Invalid token"⟩) ∧
    check_token key (t0 + ttl * 60 + 1)
      ⟨some (.jwtToken (create_access_token key ttl claims t0)), none⟩
      = .error ⟨401, "Token expired"⟩ ∧
    (HTTPError.mk 401 "Invalid token") ≠ ⟨401, "Token expired"⟩ := by
  refine ⟨?_, ?_, by simp⟩
  · intro req hreq
    have hsig : ¬ (orig = tampered) := fun hc => hne hc.symm
    simp [check_token, hreq, jwt_decode, mac, hsig]
  · simp [check_token, extract_token, jwt_decode, create_access_token, mac]

/-- Witness for C4: a concrete tampered payload and a concrete expired
presentation. -/
theorem tamper_before_expiry_witness :
    (∀ req, extract_token req =
        some (.jwtToken ⟨⟨⟨"a@x", "Mallory", "admin", true, some 0⟩, 2800⟩,
                          mac 7 ⟨claimsAlice, 2800⟩⟩) →
       check_token 7 0 req = .error ⟨401, "Invalid token"⟩) ∧
    check_token 7 (1000 + 30 * 60 + 1)
      ⟨some (.jwtToken (create_access_token 7 30 claimsAlice 1000)), none⟩
      = .error ⟨401, "Token expired"⟩ ∧
    (HTTPError.mk 401 "Invalid token") ≠ ⟨401, "Token expired"⟩ :=
  tamper_before_expiry 7 0 1000 30 claimsAlice ⟨claimsAlice, 2800⟩
    ⟨⟨"a@x", "Mallory", "admin", true, some 0⟩, 2800⟩ (by decide)

/-- Claim C5: purchase is idempotent and non-extending: with subscribed
already true it answers Already purchased and leaves the store untouched
(in particular subscription_date and the window are unchanged); with
subscribed false it sets subscribed := true and subscription_date := now. -/
theorem purchase_idempotent (u : User) (db : List User) (now : Nat) :
    (u.subscribed = true → purchase_subscription u db now = (.alreadyPurchased, db)) ∧
    (u.subscribed = false → purchase_subscription u db now =
       (.purchased u.id now (now + SUBSCRIPTION_DURATION_DAYS * daySeconds) SUBSCRIPTION_PRICE,
        updateById db u.id { u with subscribed := true, subscription_date := some now })) := by
  constructor <;> intro h <;> simp [purchase_subscription, h]

/-- Witness for C5: both branches at concrete users. -/
theorem purchase_idempotent_witness :
    purchase_subscription aliceU [aliceU] 500 = (.alreadyPurchased, [aliceU]) ∧
    purchase_subscription ⟨3, "Carol", "c@x", "h", "student", false, none⟩
        [⟨3, "Carol", "c@x", "h", "student", false, none⟩] 500 =
      (.purchased 3 500 (500 + SUBSCRIPTION_DURATION_DAYS * daySeconds) SUBSCRIPTION_PRICE,
       updateById [⟨3, "Carol", "c@x", "h", "student", false, none⟩] 3
         ⟨3, "Carol", "c@x", "h", "student", true, some 500⟩) :=
  ⟨(purchase_idempotent aliceU [aliceU] 500).1 rfl,
   (purchase_idempotent ⟨3, "Carol", "c@x", "h", "student", false, none⟩
     [⟨3, "Carol", "c@x", "h", "student", false, none⟩] 500).2 rfl⟩

/-- Claim C9: the already-subscribed branch of purchase looks only at the
cached subscribed flag: even when the 30-day window has elapsed, a user
whose flag is still true gets the Already purchased no-op and every field
of every row is left unchanged. -/
theorem purchase_ignores_window (u : User) (db : List User) (now d : Nat)
    (hs : u.subscribed = true) (hd : u.subscription_date = some d)
    (helapsed : now > d + SUBSCRIPTION_DURATION_DAYS * daySeconds) :
    purchase_subscription u db now = (.alreadyPurchased, db) := by
  simp [purchase_subscription, hs]

/-- Witness for C9: Alice at day 31 with the flag still set. -/
theorem purchase_ignores_window_witness :
    purchase_subscription aliceU [aliceU] 2678400 = (.alreadyPurchased, [aliceU]) :=
  purchase_ignores_window aliceU [aliceU] 2678400 0 rfl rfl (by decide)

/-- Claim C7: login anti-enumeration: an unknown email and a failed password
verification produce the one identical generic 401 outcome. -/
theorem login_anti_enumeration (verify : String → String → Bool) (key ttl now : Nat)
    (db : List User) (l : LoginModel) :
    (findUser db l.email = none →
       login_user verify key ttl now l db = .error ⟨401, "Invalid email or password"⟩) ∧
    (∀ u, findUser db l.email = some u → verify l.password u.hashed_password = false →
       login_user verify key ttl now l db = .error ⟨401, "Invalid email or password"⟩) := by
  constructor
  · intro h
    simp [login_user, h]
  · intro u hu hv
    simp [login_user, hu, hv]

/-- Witness for C7: both failure causes at concrete inputs, yielding the
same outcome. -/
theorem login_anti_enumeration_witness :
    login_user (fun p h => p == h) 7 30 0 ⟨"ghost@x", "pw1234"⟩ [aliceU]
      = .error ⟨401, "Invalid email or password"⟩ ∧
    login_user (fun p h => p == h) 7 30 0 ⟨"a@x", "wrongpw"⟩ [aliceU]
      = .error ⟨401, "Invalid email or password"⟩ :=
  ⟨(login_anti_enumeration (fun p h => p == h) 7 30 0 [aliceU] ⟨"ghost@x", "pw1234"⟩).1
     (by decide),
   (login_anti_enumeration (fun p h => p == h) 7 30 0 [aliceU] ⟨"a@x", "wrongpw"⟩).2
     aliceU (by decide) (by decide)⟩

end ELearn

namespace ELearn

/-- Counterexample to claim C1, as stated: at day 31 the course guard is a
subscription check run strictly after subscription_started_at + 30 days; it
reports the subscription inactive (403), yet the store it returns is the
store it was given, with the subscribed flag still true — nothing was
flipped or persisted on this path. -/
theorem course_guard_does_not_flip :
    2678400 > 0 + SUBSCRIPTION_DURATION_DAYS * daySeconds ∧
    (get_current_subscribed_user 7 2678400 reqAlice [aliceU]).1
      = .error ⟨403, "Subscription has expired"⟩ ∧
    (get_current_subscribed_user 7 2678400 reqAlice [aliceU]).2 = [aliceU] ∧
    aliceU.subscribed = true := by decide

/-- Claim C1 amended: past the 30-day window, check_subscription flips the
subscribed flag to false, persists it and reports the subscription expired;
the course guard get_current_subscribed_user also denies access (403) but
leaves the store unchanged, without flipping the flag. -/
theorem expiry_check_behaviors (key now : Nat) (db : List User) (u : User) (d : Nat)
    (req : Request) (td : TokenData)
    (hfind : findUser db u.email = some u)
    (hs : u.subscribed = true) (hd : u.subscription_date = some d)
    (hexp : now > d + SUBSCRIPTION_DURATION_DAYS * daySeconds)
    (htok : check_token key now req = .ok td)
    (hemail : td.user.claims.email = u.email) :
    check_subscription u.email db now =
      (.ok (.inactive "Subscription expired"),
       updateById db u.id { u with subscribed := false }) ∧
    get_current_subscribed_user key now req db
      = (.error ⟨403, "Subscription has expired"⟩, db) := by
  constructor
  · simp [check_subscription, hfind, hs, hd, hexp]
  · have h30 : now > d + 30 * daySeconds := by
      simpa [SUBSCRIPTION_DURATION_DAYS] using hexp
    simp [get_current_subscribed_user, htok, hemail, hfind, hs, hd, h30]

/-- Witness for the amended C1 at a concrete expired subscriber. -/
theorem expiry_check_behaviors_witness :
    check_subscription "a@x" [aliceU] 2678400 =
      (.ok (.inactive "Subscription expired"),
       updateById [aliceU] aliceU.id { aliceU with subscribed := false }) ∧
    get_current_subscribed_user 7 2678400 reqAlice [aliceU]
      = (.error ⟨403, "Subscription has expired"⟩, [aliceU]) :=
  expiry_check_behaviors 7 2678400 [aliceU] aliceU 0 reqAlice
    ⟨"Valid token", ⟨claimsAlice, 2678400 + 30 * 60⟩⟩
    (by decide) rfl rfl (by decide) (by decide) rfl

/-- Subscribed row without a subscription_date, for the C2 counterexample. -/
def bobU : User := ⟨2, "Bob", "b@x", "h", "student", true, none⟩

def claimsBob : TokenClaims := ⟨"b@x", "Bob", "student", true, none⟩

def tokBob : Token := create_access_token 7 30 claimsBob 100

def reqBob : Request := ⟨some (.jwtToken tokBob), none⟩

/-- Counterexample to claim C2, as stated: Bob is subscribed with no
subscription_started_at, yet the course guard grants him access to gated
content instead of denying it. -/
theorem lifetime_access_granted :
    bobU.subscription_date = none ∧ bobU.subscribed = true ∧
    (get_current_subscribed_user 7 150 reqBob [bobU]).1 = .ok (userDict bobU) := by
  decide

/-- Claim C2 amended: with subscription_started_at absent, check_subscription
reports No active subscription even when subscribed is true; the course
guard get_current_subscribed_user instead treats such a user as valid
(maybe lifetime) and grants access. -/
theorem absent_date_behaviors (key now : Nat) (db : List User) (u : User)
    (req : Request) (td : TokenData)
    (hfind : findUser db u.email = some u) (hd : u.subscription_date = none)
    (hs : u.subscribed = true)
    (htok : check_token key now req = .ok td)
    (hemail : td.user.claims.email = u.email) :
    check_subscription u.email db now = (.ok (.inactive "No active subscription"), db) ∧
    get_current_subscribed_user key now req db = (.ok (userDict u), db) := by
  constructor
  · simp [check_subscription, hfind, hs, hd]
  · simp [get_current_subscribed_user, htok, hemail, hfind, hs, hd]

/-- Witness for the amended C2 at the concrete dateless subscriber. -/
theorem absent_date_behaviors_witness :
    check_subscription "b@x" [bobU] 150 = (.ok (.inactive "No active subscription"), [bobU]) ∧
    get_current_subscribed_user 7 150 reqBob [bobU] = (.ok (userDict bobU), [bobU]) :=
  absent_date_behaviors 7 150 [bobU] bobU reqBob
    ⟨"Valid token", ⟨claimsBob, 100 + 30 * 60⟩⟩
    (by decide) rfl rfl (by decide) rfl

/-- Claim C6: after a successful token verification, each guard re-resolves
the user row by the claimed email: a vanished row yields the 401 User not
found on either guard; the admin decision is computed from the fetched row
alone; and two verified requests claiming the same email get identical guard
outcomes whatever the role or subscribed values inside their claims. -/
theorem guards_use_fresh_row (key now : Nat) (db : List User) (req : Request)
    (td : TokenData) (htok : check_token key now req = .ok td) :
    (findUser db td.user.claims.email = none →
       get_current_subscribed_user key now req db = (.error ⟨401, "User not found"⟩, db) ∧
       get_current_admin key now req db = (.error ⟨401, "User not found"⟩, db)) ∧
    (∀ u, findUser db td.user.claims.email = some u →
       get_current_admin key now req db =
         (if u.role = "admin" then (.ok (userDict u), db)
          else (.error ⟨403, "Admin access required"⟩, db))) ∧
    (∀ req₂ td₂, check_token key now req₂ = .ok td₂ →
       td₂.user.claims.email = td.user.claims.email →
       get_current_admin key now req₂ db = get_current_admin key now req db ∧
       get_current_subscribed_user key now req₂ db
         = get_current_subscribed_user key now req db) := by
  refine ⟨?_, ?_, ?_⟩
  · intro h
    constructor
    · simp [get_current_subscribed_user, htok, h]
    · simp [get_current_admin, htok, h]
  · intro u hu
    by_cases hr : u.role = "admin"
    · simp [get_current_admin, htok, hu, hr]
    · simp [get_current_admin, htok, hu, hr]
  · intro req₂ td₂ htok₂ hemail
    constructor
    · simp [get_current_admin, htok, htok₂, hemail]
    · simp [get_current_subscribed_user, htok, htok₂, hemail]

/-- The unique admin row used by the C6 and C8 witnesses. -/
def rootU : User := ⟨1, "Root", "admin@x", "h", "admin", false, none⟩

def claimsRoot : TokenClaims := ⟨"admin@x", "Root", "admin", false, none⟩

def tokRoot : Token := create_access_token 7 30 claimsRoot 1000

def reqRoot : Request := ⟨some (.jwtToken tokRoot), none⟩

/-- A second token for the same email whose claims carry a different role
and subscribed flag. -/
def claimsRootStale : TokenClaims := ⟨"admin@x", "Root", "student", true, some 0⟩

def tokRootStale : Token := create_access_token 7 30 claimsRootStale 1000

def reqRootStale : Request := ⟨some (.jwtToken tokRootStale), none⟩

/-- Witness for C6: the admin decision at the concrete row, and the
insensitivity of both guards to the role and subscribed claims of a second
token naming the same email. -/
theorem guards_use_fresh_row_witness :
    get_current_admin 7 1000 reqRoot [rootU] =
      (if rootU.role = "admin" then (.ok (userDict rootU), [rootU])
       else (.error ⟨403, "Admin access required"⟩, [rootU])) ∧
    (get_current_admin 7 1000 reqRootStale [rootU] = get_current_admin 7 1000 reqRoot [rootU] ∧
     get_current_subscribed_user 7 1000 reqRootStale [rootU]
       = get_current_subscribed_user 7 1000 reqRoot [rootU]) :=
  ⟨(guards_use_fresh_row 7 1000 [rootU] reqRoot
      ⟨"Valid token", ⟨claimsRoot, 1000 + 30 * 60⟩⟩ (by decide)).2.1 rootU (by decide),
   (guards_use_fresh_row 7 1000 [rootU] reqRoot
      ⟨"Valid token", ⟨claimsRoot, 1000 + 30 * 60⟩⟩ (by decide)).2.2 reqRootStale
      ⟨"Valid token", ⟨claimsRootStale, 1000 + 30 * 60⟩⟩ (by decide) rfl⟩

end ELearn

namespace ELearn

/-- Appending one row changes the admin count by one exactly when the new
row has the admin role. -/
theorem countAdmins_append_one (db : List User) (nu : User) :
    countAdmins (db ++ [nu]) = countAdmins db + (if nu.role == "admin" then 1 else 0) := by
  simp only [countAdmins, List.filter_append, List.length_append]
  cases h : nu.role == "admin" <;> simp [List.filter, h]

/-- When the admin lookup finds nothing, the admin count is zero. -/
theorem countAdmins_eq_zero_of_find_none (db : List User)
    (h : db.find? (fun u => u.role == "admin") = none) : countAdmins db = 0 := by
  simp only [countAdmins, List.length_eq_zero, List.filter_eq_nil_iff]
  intro u hu
  have := List.find?_eq_none.mp h u hu
  simpa using this

/-- One registration step keeps the admin count at most one. -/
theorem register_user_preserves (hash : String → String) (r : UserModel)
    (db : List User) (i : Nat) (h : countAdmins db ≤ 1) :
    countAdmins ((register_user hash r db i).2) ≤ 1 := by
  unfold register_user
  split
  · exact h
  · split
    · exact h
    · rename_i hdup hadm
      simp only
      rw [countAdmins_append_one]
      by_cases hr : r.role == "admin"
      · have hfind : db.find? (fun u => u.role == "admin") = none := by
          cases hf : db.find? (fun u => u.role == "admin") with
          | none => rfl
          | some a =>
            exfalso
            exact hadm (by simp [hr, hf])
        rw [countAdmins_eq_zero_of_find_none db hfind]
        simp [hr]
      · simp only [hr, if_neg]
        simpa using h
  
/-- Any sequence of registrations keeps the admin count at most one. -/
theorem registerAll_preserves (hash : String → String)
    (reqs : List (UserModel × Nat)) :
    ∀ db : List User, countAdmins db ≤ 1 → countAdmins (registerAll hash reqs db) ≤ 1 := by
  induction reqs with
  | nil => intro db h; exact h
  | cons r rs ih =>
    intro db h
    exact ih ((register_user hash r.1 db r.2).2) (register_user_preserves hash r.1 db r.2 h)

/-- Claim C8: starting from a store with at most one admin, any sequence of
registrations leaves at most one admin; a registration with role admin made
while an admin row exists is rejected with the store unchanged, its error
being either the duplicate-email detail or the admin-uniqueness detail; and
those two error reasons are distinct. -/
theorem at_most_one_admin (hash : String → String) (db : List User)
    (reqs : List (UserModel × Nat)) (h : countAdmins db ≤ 1) :
    countAdmins (registerAll hash reqs db) ≤ 1 ∧
    (∀ r i, r.role = "admin" → (db.find? (fun u => u.role == "admin")).isSome = true →
       (register_user hash r db i).2 = db ∧
       ((register_user hash r db i).1 = .error ⟨400, "User with this email already exists"⟩ ∨
        (register_user hash r db i).1 = .error ⟨400, "Admin user already exists"⟩)) ∧
    (HTTPError.mk 400 "Admin user already exists") ≠ ⟨400, "User with this email already exists"⟩ := by
  refine ⟨registerAll_preserves hash reqs db h, ?_, by simp⟩
  intro r i hr hA
  by_cases hdup : (findUser db r.email).isSome
  · constructor
    · simp [register_user, hdup]
    · left
      simp [register_user, hdup]
  · constructor
    · simp [register_user, hdup, hr, hA]
    · right
      simp [register_user, hdup, hr, hA]

/-- A second-admin registration request, for the C8 witness. -/
def eveReg : UserModel := ⟨"Eve", "e@x", "secret1", "admin"⟩

/-- Witness for C8: with the one admin row present, the count stays at most
one and the second admin registration is rejected without touching the
store. -/
theorem at_most_one_admin_witness :
    countAdmins (registerAll (fun s => s) [] [rootU]) ≤ 1 ∧
    ((register_user (fun s => s) eveReg [rootU] 2).2 = [rootU] ∧
     ((register_user (fun s => s) eveReg [rootU] 2).1
        = .error ⟨400, "User with this email already exists"⟩ ∨
      (register_user (fun s => s) eveReg [rootU] 2).1
        = .error ⟨400, "Admin user already exists"⟩)) :=
  ⟨(at_most_one_admin (fun s => s) [rootU] [] (by decide)).1,
   (at_most_one_admin (fun s => s) [rootU] [] (by decide)).2.1 eveReg 2 rfl (by decide)⟩

/-- Every rejection issued by check_token carries status 401. -/
theorem check_token_error_status (key now : Nat) (req : Request) (e : HTTPError)
    (he : check_token key now req = .error e) : e.status = 401 := by
  unfold check_token at he
  split at he
  · injection he with h
    rw [← h]
  · split at he
    · exact absurd he (by simp)
    · injection he with h
      rw [← h]
    · injection he with h
      rw [← h]

/-- Claim C10: logout runs check_token first: any missing, malformed or
expired token makes logout_user fail with that same 401 error, producing no
cookie-deleting response; a valid token yields exactly the cookie-deleting
Logged out response. -/
theorem logout_requires_valid_token (key now : Nat) (req : Request) :
    (∀ e, check_token key now req = .error e →
       logout_user key now req = .error e ∧ e.status = 401) ∧
    (∀ td, check_token key now req = .ok td →
       logout_user key now req = .ok logout ∧ logout.deleted_cookie = true) := by
  constructor
  · intro e he
    exact ⟨by simp [logout_user, he], check_token_error_status key now req e he⟩
  · intro td htd
    exact ⟨by simp [logout_user, htd], rfl⟩

/-- Witness for C10: a request with no cookie and no Authorization header is
refused with the 401 missing-token error, and a request with a valid token
gets the cookie-deleting response. -/
theorem logout_requires_valid_token_witness :
    (logout_user 7 1000 ⟨none, none⟩
       = .error ⟨401, "No token found in cookies or Authorization header"⟩ ∧
     (HTTPError.mk 401 "No token found in cookies or Authorization header").status = 401) ∧
    (logout_user 7 1000 reqRoot = .ok logout ∧ logout.deleted_cookie = true) :=
  ⟨(logout_requires_valid_token 7 1000 ⟨none, none⟩).1
     ⟨401, "No token found in cookies or Authorization header"⟩ (by decide),
   (logout_requires_valid_token 7 1000 reqRoot).2
     ⟨"Valid token", ⟨claimsRoot, 1000 + 30 * 60⟩⟩ (by decide)⟩

end ELearn
